import Mathlib

/-!
Verification of `src/TailEventGraphs/tail_events_distribution_graphs.py`.

The script exposes three functions: `calculate_tails`, `calculate_xrange`
and the orchestrator `plot_tail_events`.  Real-number arithmetic of the
source (Python floats) is embedded into `ℚ`, the exact field in which the
specification states its identities.  The scipy distribution objects are
external to the repository, so the orchestrator is parametrised by an
environment supplying the four constructors; each constructor returns
either a distribution instance (mean, standard deviation, density) or an
error, exactly the interface `plot_tail_events` consumes.
-/

/-- Embedding of `calculate_tails` (lines 7-13): `(mean - 3*std, mean + 3*std)`. -/
def calculate_tails (mean std : ℚ) : ℚ × ℚ :=
  (mean - 3 * std, mean + 3 * std)

/-- Embedding of `calculate_xrange` (lines 16-25): `(mean - 4*std, mean + 4*std)`. -/
def calculate_xrange (mean std : ℚ) : ℚ × ℚ :=
  (mean - 4 * std, mean + 4 * std)

/-- Embedding of `np.linspace(start, stop, num)` as used at line 75 with
`endpoint=True` defaults: numpy raises `ValueError` for a negative sample
count and otherwise returns the `num` values `start + (stop-start)*i/(num-1)`
for `i = 0, …, num-1` (for `num = 1` the single value is `start`, which the
formula also yields in `ℚ` where division by zero is zero; for `num = 0`
the list is empty). -/
def linspace (start stop : ℚ) (num : ℤ) : Except String (List ℚ) :=
  if num < 0 then
    Except.error "Number of samples must be non-negative"
  else
    Except.ok ((List.range num.toNat).map
      (fun (i : ℕ) => start + (stop - start) * (i : ℚ) / ((num : ℚ) - 1)))

/-- Embedding of the Python builtin `max` applied to the sampled densities
at line 100: the maximum element of a nonempty list, an error (`none`) on an
empty one. -/
def pymax : List ℚ → Option ℚ
  | [] => none
  | x :: xs => some (xs.foldl max x)

/-- The `where` mask of the left-tail fill at line 86: `x < tails[0]`. -/
def inLeftTail (x lower : ℚ) : Bool :=
  decide (x < lower)

/-- The `where` mask of the right-tail fill at line 87: `x > tails[1]`. -/
def inRightTail (x upper : ℚ) : Bool :=
  decide (upper < x)

/-- The center fill at line 85 is drawn first with no mask and the two tail
fills are drawn on top of it, so a sample point is rendered in the center
color exactly when neither tail mask holds at it. -/
def inCenter (x lower upper : ℚ) : Bool :=
  !(inLeftTail x lower) && !(inRightTail x upper)

/-- A resolved distribution instance: the interface `plot_tail_events`
consumes from a scipy frozen distribution — its mean (`dist.mean()`, line
68), standard deviation (`dist.std()`, line 69) and density (`dist.pdf`,
line 76). -/
structure ScipyDist where
  mean : ℚ
  std : ℚ
  pdf : ℚ → ℚ

/-- The four scipy constructors referenced by the lookup table at lines
56-61 (`stats.norm`, `stats.uniform`, `stats.laplace`, `stats.expon`).
They live outside this repository, so the orchestrator is parametrised by
an environment supplying them; a constructor receives the forwarded
parameters and either returns a frozen distribution or raises. -/
structure ScipyEnv (P : Type) where
  norm : P → Except String ScipyDist
  uniform : P → Except String ScipyDist
  laplace : P → Except String ScipyDist
  expon : P → Except String ScipyDist

/-- The `distributions` lookup table of lines 56-61, with its exact keys:
note the capitalised key `"Laplace"` against the three lowercase keys. -/
def distributions {P : Type} (env : ScipyEnv P) :
    List (String × (P → Except String ScipyDist)) :=
  [("normal", env.norm), ("uniform", env.uniform),
   ("Laplace", env.laplace), ("exponential", env.expon)]

/-- The assertion message of lines 62-64 (one Python string literal with a
backslash line continuation, so the indentation of the second line is part
of the message). It enumerates `Laplace` with a capital letter. -/
def assertMessage : String :=
  "Please specify a valid value for \x27distribution\x27.         Valid values are \x27normal\x27, \x27uniform\x27, \x27Laplace\x27, and \x27exponential\x27."

/-- The valid names according to the docstring of `plot_tail_events`
(line 35): `normal`, `uniform`, `laplace`, `exponential` — all
lowercase. -/
def docstringValidNames : List String :=
  ["normal", "uniform", "laplace", "exponential"]

/-- The failure kinds of a `plot_tail_events` call: the failed `assert` of
line 62, an error raised by the scipy constructor at line 65, the
`ValueError` numpy raises for a negative sample count at line 75, and the
`ValueError` the builtin `max` raises on an empty sequence at line 100. -/
inductive PlotError where
  | assertionError (msg : String)
  | constructorError (msg : String)
  | numpyError (msg : String)
  | valueError (msg : String)
deriving DecidableEq

/-- The externally visible steps of `plot_tail_events`, in source order;
`createFigure` is the `plt.subplots` call at line 82, the sole point where
an output artifact comes into existence. -/
inductive Event where
  | resolveDist
  | constructDist
  | computeMoments
  | computeXRange
  | sampleDensity
  | evalDensity
  | computeTails
  | createFigure
  | fillRegions
  | setStyles
  | drawReferenceLines
  | setYLim
deriving DecidableEq

/-- One `ax.fill_between(x, 0, y, where=mask, facecolor=color)` call
(lines 85-87): the sampled x-values, the base line `y = 0`, the curve, the
per-sample mask and the fill color. -/
structure Fill where
  x : List ℚ
  yBase : ℚ
  y : List ℚ
  mask : List Bool
  color : String
deriving DecidableEq

/-- The figure/axis state `plot_tail_events` returns: sampled data, the
three fills, title, axis labels, the y-tick list set at line 95, the
vertical reference lines of lines 97-98 (position and line style) and the
y-limits set at line 100. -/
structure Figure where
  figsize : ℚ × ℚ
  xs : List ℚ
  ys : List ℚ
  fills : List Fill
  title : String
  xlabel : String
  ylabel : String
  yticks : List ℚ
  vlines : List (ℚ × String)
  ylim : ℚ × ℚ
deriving DecidableEq

instance {ε α : Type} [DecidableEq ε] [DecidableEq α] : DecidableEq (Except ε α) := fun a b =>
  match a, b with
  | Except.error e, Except.error f =>
      if h : e = f then isTrue (by rw [h])
      else isFalse (fun hc => h (Except.error.inj hc))
  | Except.ok x, Except.ok y =>
      if h : x = y then isTrue (by rw [h])
      else isFalse (fun hc => h (Except.ok.inj hc))
  | Except.error _, Except.ok _ => isFalse (fun hc => Except.noConfusion hc)
  | Except.ok _, Except.error _ => isFalse (fun hc => Except.noConfusion hc)

/-- A run of `plot_tail_events`: the steps it executed, in order, and its
outcome. -/
structure PlotRun where
  events : List Event
  result : Except PlotError Figure

/-- Embedding of `plot_tail_events` (lines 28-102).  The name is looked up
in the table (the `assert` of lines 62-64 and the indexing at line 65),
the constructor is applied to the forwarded parameters, moments and ranges
are computed, the density is sampled with `np.linspace` and `dist.pdf`,
and only then is the figure created and decorated.  Every executed step is
recorded in the event list. -/
def plot_tail_events {P : Type} (env : ScipyEnv P) (distribution : String) (n : ℤ)
    (tail_color : String) (center_color : String) (params : P) : PlotRun :=
  match (distributions env).find? (fun kv => kv.1 == distribution) with
  | none =>
      { events := [Event.resolveDist],
        result := Except.error (PlotError.assertionError assertMessage) }
  | some kv =>
      match kv.2 params with
      | Except.error msg =>
          { events := [Event.resolveDist, Event.constructDist],
            result := Except.error (PlotError.constructorError msg) }
      | Except.ok dist =>
          match linspace (calculate_xrange dist.mean dist.std).1
              (calculate_xrange dist.mean dist.std).2 n with
          | Except.error msg =>
              { events := [Event.resolveDist, Event.constructDist, Event.computeMoments,
                  Event.computeXRange, Event.sampleDensity],
                result := Except.error (PlotError.numpyError msg) }
          | Except.ok x =>
              match pymax (x.map dist.pdf) with
              | none =>
                  { events := [Event.resolveDist, Event.constructDist, Event.computeMoments,
                      Event.computeXRange, Event.sampleDensity, Event.evalDensity,
                      Event.computeTails, Event.createFigure, Event.fillRegions,
                      Event.setStyles, Event.drawReferenceLines],
                    result := Except.error
                      (PlotError.valueError "max() arg is an empty sequence") }
              | some m =>
                  { events := [Event.resolveDist, Event.constructDist, Event.computeMoments,
                      Event.computeXRange, Event.sampleDensity, Event.evalDensity,
                      Event.computeTails, Event.createFigure, Event.fillRegions,
                      Event.setStyles, Event.drawReferenceLines, Event.setYLim],
                    result := Except.ok
                      { figsize := (9, 6),
                        xs := x,
                        ys := x.map dist.pdf,
                        fills := [
                          { x := x, yBase := 0, y := x.map dist.pdf,
                            mask := x.map (fun _ => true), color := center_color },
                          { x := x, yBase := 0, y := x.map dist.pdf,
                            mask := x.map (fun xi =>
                              inLeftTail xi (calculate_tails dist.mean dist.std).1),
                            color := tail_color },
                          { x := x, yBase := 0, y := x.map dist.pdf,
                            mask := x.map (fun xi =>
                              inRightTail xi (calculate_tails dist.mean dist.std).2),
                            color := tail_color } ],
                        title := "Tail events for " ++ distribution ++ " distribution",
                        xlabel := "x",
                        ylabel := "f(x)",
                        yticks := [],
                        vlines := [((calculate_tails dist.mean dist.std).1, "-"),
                          ((calculate_tails dist.mean dist.std).2, "-"),
                          (dist.mean, "--")],
                        ylim := (0, 6 / 5 * m) } }

/-- The sampled data of a run, the `(xs, ys)` pair of lines 75-76, when the
run succeeded. -/
def sampledData (r : PlotRun) : Option (List ℚ × List ℚ) :=
  r.result.toOption.map (fun fig => (fig.xs, fig.ys))

/-- A concrete stand-in distribution instance for evaluating the embedding
on closed inputs: mean 0, standard deviation 1, constant density 1. -/
def probeDist : ScipyDist :=
  { mean := 0, std := 1, pdf := fun _ => 1 }

/-- A concrete stand-in constructor environment for evaluating the
embedding on closed inputs; every constructor succeeds with `probeDist`. -/
def probeEnv : ScipyEnv Unit :=
  { norm := fun _ => Except.ok probeDist,
    uniform := fun _ => Except.ok probeDist,
    laplace := fun _ => Except.ok probeDist,
    expon := fun _ => Except.ok probeDist }

/-- The figure `plot_tail_events probeEnv "normal" 2 …` evaluates to. -/
def probeFigure : Figure :=
  { figsize := (9, 6),
    xs := [-4, 4],
    ys := [1, 1],
    fills := [
      { x := [-4, 4], yBase := 0, y := [1, 1], mask := [true, true],
        color := "#e6ffff" },
      { x := [-4, 4], yBase := 0, y := [1, 1], mask := [true, false],
        color := "#ff0000" },
      { x := [-4, 4], yBase := 0, y := [1, 1], mask := [false, true],
        color := "#ff0000" } ],
    title := "Tail events for normal distribution",
    xlabel := "x",
    ylabel := "f(x)",
    yticks := [],
    vlines := [(-3, "-"), (3, "-"), (0, "--")],
    ylim := (0, 6 / 5) }

/-- C4: for a sample count `n ≥ 2` over a domain `x_min < x_max`, the
sampling step at lines 75-76 succeeds and produces exactly `n` evenly
spaced x-values — the i-th is `x_min + (x_max - x_min) * i / (n - 1)` —
whose first element is `x_min` and whose last is `x_max`, in strictly
increasing order, together with a same-length list of density values at
those points. -/
theorem linspace_spec (a b : ℚ) (n : ℤ) (f : ℚ → ℚ) (hn : 2 ≤ n) (hab : a < b) :
    ∃ xs, linspace a b n = Except.ok xs ∧
      xs.length = n.toNat ∧
      (∀ i : ℕ, i < n.toNat → xs.get? i = some (a + (b - a) * (i : ℚ) / ((n : ℚ) - 1))) ∧
      xs.head? = some a ∧
      xs.getLast? = some b ∧
      List.Chain' (fun u v => u < v) xs ∧
      (xs.map f).length = xs.length := by
  have hn0 : (0 : ℤ) ≤ n := by omega
  have hnN : 2 ≤ n.toNat := by omega
  have hQn : ((n.toNat : ℚ)) = (n : ℚ) := by exact_mod_cast Int.toNat_of_nonneg hn0
  have hD : 0 < (n : ℚ) - 1 := by
    have : (2 : ℚ) ≤ (n : ℚ) := by exact_mod_cast hn
    linarith
  have hba : 0 < b - a := by linarith
  refine ⟨(List.range n.toNat).map
      (fun (i : ℕ) => a + (b - a) * (i : ℚ) / ((n : ℚ) - 1)), ?_, ?_, ?_, ?_, ?_, ?_, ?_⟩
  · unfold linspace
    rw [if_neg (by omega)]
  · simp
  · intro i hi
    rw [List.get?_eq_getElem?, List.getElem?_map, List.getElem?_range hi, Option.map_some']
  · rw [List.head?_eq_getElem?, List.getElem?_map,
      List.getElem?_range (by omega : 0 < n.toNat), Option.map_some']
    norm_num
  · rw [List.getLast?_eq_getElem?]
    simp only [List.length_map, List.length_range]
    rw [List.getElem?_map, List.getElem?_range (by omega : n.toNat - 1 < n.toNat),
      Option.map_some']
    have hcast : ((n.toNat - 1 : ℕ) : ℚ) = (n : ℚ) - 1 := by
      rw [Nat.cast_sub (by omega : 1 ≤ n.toNat), hQn, Nat.cast_one]
    rw [hcast, mul_div_assoc, div_self hD.ne', mul_one]
    norm_num
  · rw [List.chain'_iff_get]
    intro i hi
    simp only [List.length_map, List.length_range] at hi
    simp only [List.get_eq_getElem, List.getElem_map, List.getElem_range]
    have hstep : (b - a) * (i : ℚ) / ((n : ℚ) - 1) < (b - a) * ((i : ℚ) + 1) / ((n : ℚ) - 1) := by
      rw [div_lt_div_iff₀ hD hD]
      nlinarith
    push_cast
    linarith
  · simp

/-- Witness for C4 at `a = 0`, `b = 1`, `n = 2`, `f = id`. -/
theorem linspace_spec_witness :
    ∃ xs, linspace 0 1 2 = Except.ok xs ∧
      xs.length = (2 : ℤ).toNat ∧
      (∀ i : ℕ, i < (2 : ℤ).toNat →
        xs.get? i = some (0 + (1 - 0) * (i : ℚ) / (((2 : ℤ) : ℚ) - 1))) ∧
      xs.head? = some 0 ∧
      xs.getLast? = some 1 ∧
      List.Chain' (fun u v => u < v) xs ∧
      (xs.map id).length = xs.length :=
  linspace_spec 0 1 2 id (by norm_num) (by norm_num)

/-- C5 counterexample: the sampling step does not reject the sample count
`n = 1 < 2` — `np.linspace(0, 1, 1)` succeeds and returns the single value
`[0]`. -/
theorem linspace_accepts_one_sample :
    linspace 0 1 1 = Except.ok [0] ∧ (1 : ℤ) < 2 := by
  constructor
  · unfold linspace
    norm_num
  · norm_num

/-- C5 amended: the sampling step rejects exactly the negative sample
counts (numpy raises for `num < 0`); every `n ≥ 0` succeeds, returning `n`
values — degenerate (fewer than two points) when `n < 2` — so in
particular `n ≥ 2` never fails. -/
theorem linspace_ok_iff (a b : ℚ) (n : ℤ) :
    ((∃ xs, linspace a b n = Except.ok xs) ↔ 0 ≤ n) ∧
    (∀ xs, linspace a b n = Except.ok xs → xs.length = n.toNat) := by
  unfold linspace
  by_cases h : n < 0
  · rw [if_pos h]
    constructor
    · have h1 : ¬∃ xs, (Except.error "Number of samples must be non-negative" :
          Except String (List ℚ)) = Except.ok xs := by
        rintro ⟨xs, hxs⟩
        exact Except.noConfusion hxs
      exact iff_of_false h1 (by omega)
    · intro xs hxs
      exact absurd hxs (fun hc => Except.noConfusion hc)
  · rw [if_neg h]
    constructor
    · exact iff_of_true ⟨_, rfl⟩ (by omega)
    · intro xs hxs
      have := Except.ok.inj hxs
      rw [← this]
      simp

/-- Witness for C5 amended at `a = 0`, `b = 1`, `n = 1`: the single-sample
call succeeds with one point. -/
theorem linspace_ok_iff_witness : ([(0 : ℚ)]).length = (1 : ℤ).toNat :=
  (linspace_ok_iff 0 1 1).2 [0] (by unfold linspace; norm_num)

/-- C2: for every mean and every positive standard deviation,
`calculate_tails` returns exactly `(μ - 3σ, μ + 3σ)` and `calculate_xrange`
returns exactly `(μ - 4σ, μ + 4σ)`. -/
theorem calculate_tails_xrange_exact (μ σ : ℚ) (hσ : 0 < σ) :
    calculate_tails μ σ = (μ - 3 * σ, μ + 3 * σ) ∧
    calculate_xrange μ σ = (μ - 4 * σ, μ + 4 * σ) :=
  ⟨rfl, rfl⟩

/-- Witness for C2 at the standard-normal moments `μ = 0`, `σ = 1`. -/
theorem calculate_tails_xrange_exact_witness :
    calculate_tails 0 1 = (0 - 3 * 1, 0 + 3 * 1) ∧
    calculate_xrange 0 1 = (0 - 4 * 1, 0 + 4 * 1) :=
  calculate_tails_xrange_exact 0 1 (by norm_num)

/-- C9: `calculate_tails` and `calculate_xrange` are total functions of the
embedding (they are defined for every rational mean and standard deviation,
with no error path), and at `σ = 0` both degenerate to the point pair
`(μ, μ)` instead of failing. -/
theorem calculate_tails_xrange_total_sigma_zero (μ : ℚ) :
    calculate_tails μ 0 = (μ, μ) ∧ calculate_xrange μ 0 = (μ, μ) := by
  constructor <;> simp [calculate_tails, calculate_xrange]

/-- C10: for positive `σ` the tail boundaries lie strictly inside the plot
domain: `x_min < lower < upper < x_max`. -/
theorem tails_strictly_inside_xrange (μ σ : ℚ) (hσ : 0 < σ) :
    (calculate_xrange μ σ).1 < (calculate_tails μ σ).1 ∧
    (calculate_tails μ σ).1 < (calculate_tails μ σ).2 ∧
    (calculate_tails μ σ).2 < (calculate_xrange μ σ).2 := by
  refine ⟨?_, ?_, ?_⟩ <;> simp only [calculate_tails, calculate_xrange] <;> linarith

/-- Witness for C10 at `μ = 0`, `σ = 1`. -/
theorem tails_strictly_inside_xrange_witness :
    (calculate_xrange 0 1).1 < (calculate_tails 0 1).1 ∧
    (calculate_tails 0 1).1 < (calculate_tails 0 1).2 ∧
    (calculate_tails 0 1).2 < (calculate_xrange 0 1).2 :=
  tails_strictly_inside_xrange 0 1 (by norm_num)

/-- C3: the three fill regions classify every sample point exhaustively and
disjointly — a point is in the left tail iff `x < lower`, in the right tail
iff `x > upper`, and in the center otherwise; a point equal to a tail
boundary is rendered in the center (tail membership is strict). -/
theorem region_partition (x lower upper : ℚ) (h : lower ≤ upper) :
    (inLeftTail x lower = true ∨ inRightTail x upper = true ∨
      inCenter x lower upper = true) ∧
    ¬(inLeftTail x lower = true ∧ inRightTail x upper = true) ∧
    ¬(inLeftTail x lower = true ∧ inCenter x lower upper = true) ∧
    ¬(inRightTail x upper = true ∧ inCenter x lower upper = true) ∧
    (inLeftTail x lower = true ↔ x < lower) ∧
    (inRightTail x upper = true ↔ upper < x) ∧
    ((x = lower ∨ x = upper) → inCenter x lower upper = true) := by
  have hL : inLeftTail x lower = true ↔ x < lower := by simp [inLeftTail]
  have hR : inRightTail x upper = true ↔ upper < x := by simp [inRightTail]
  have hC : inCenter x lower upper = true ↔ lower ≤ x ∧ x ≤ upper := by
    simp [inCenter, inLeftTail, inRightTail, not_lt]
  refine ⟨?_, ?_, ?_, ?_, hL, hR, ?_⟩
  · rcases lt_trichotomy x lower with h1 | h1 | h1
    · exact Or.inl (hL.mpr h1)
    · exact Or.inr (Or.inr (hC.mpr ⟨le_of_eq h1.symm, h1 ▸ h⟩))
    · rcases lt_or_le upper x with h2 | h2
      · exact Or.inr (Or.inl (hR.mpr h2))
      · exact Or.inr (Or.inr (hC.mpr ⟨le_of_lt h1, h2⟩))
  · rintro ⟨h1, h2⟩
    have h1' := hL.mp h1
    have h2' := hR.mp h2
    linarith
  · rintro ⟨h1, h2⟩
    have h1' := hL.mp h1
    have h2' := hC.mp h2
    linarith [h2'.1]
  · rintro ⟨h1, h2⟩
    have h1' := hR.mp h1
    have h2' := hC.mp h2
    linarith [h2'.2]
  · intro hx
    rcases hx with h1 | h1
    · exact hC.mpr ⟨le_of_eq h1.symm, le_trans (le_of_eq h1) h⟩
    · exact hC.mpr ⟨le_trans h (le_of_eq h1.symm), le_of_eq h1⟩

/-- Witness for C3 at a boundary point: `x = lower = 0`, `upper = 1`. -/
theorem region_partition_witness :
    (inLeftTail 0 0 = true ∨ inRightTail 0 1 = true ∨ inCenter 0 0 1 = true) ∧
    ¬(inLeftTail 0 0 = true ∧ inRightTail 0 1 = true) ∧
    ¬(inLeftTail 0 0 = true ∧ inCenter 0 0 1 = true) ∧
    ¬(inRightTail 0 1 = true ∧ inCenter 0 0 1 = true) ∧
    (inLeftTail 0 0 = true ↔ (0 : ℚ) < 0) ∧
    (inRightTail 0 1 = true ↔ (1 : ℚ) < 0) ∧
    (((0 : ℚ) = 0 ∨ (0 : ℚ) = 1) → inCenter 0 0 1 = true) :=
  region_partition 0 0 1 (by norm_num)

/-- C6: whenever `plot_tail_events` succeeds, the returned figure has its
y-axis limits set to `(0, 1.2 * max of the sampled density values)` and an
empty y-tick list. -/
theorem plot_ylim_yticks {P : Type} (env : ScipyEnv P) (d : String) (n : ℤ)
    (tc cc : String) (p : P) (fig : Figure) (m : ℚ)
    (hok : (plot_tail_events env d n tc cc p).result = Except.ok fig)
    (hm : pymax fig.ys = some m) :
    fig.yticks = [] ∧ fig.ylim = (0, 6 / 5 * m) := by
  unfold plot_tail_events at hok
  split at hok
  · simp at hok
  · split at hok
    · simp at hok
    · split at hok
      · simp at hok
      · split at hok
        · simp at hok
        · rename_i mmax heq
          rw [Except.ok.injEq] at hok
          subst hok
          simp only at hm
          rw [heq] at hm
          rw [Option.some.injEq] at hm
          subst hm
          exact ⟨rfl, rfl⟩

/-- The run `plot_tail_events probeEnv "normal" 2 …` succeeds and returns
exactly `probeFigure` (helper evaluation shared by witnesses). -/
theorem probe_run_normal :
    (plot_tail_events probeEnv "normal" 2 "#ff0000" "#e6ffff" ()).result =
      Except.ok probeFigure := by
  unfold plot_tail_events
  simp only [probeEnv, probeDist, distributions, List.find?, beq_self_eq_true]
  unfold linspace
  rw [if_neg (by norm_num), show ((2 : ℤ).toNat) = 2 from rfl]
  norm_num [List.range_succ, pymax, calculate_xrange, calculate_tails, inLeftTail, inRightTail,
    probeFigure, Figure.mk.injEq, Fill.mk.injEq]
  rfl

/-- Witness for C6: the successful run `plot_tail_events probeEnv "normal" 2 …`
yields the figure `probeFigure`, whose density maximum is `1`. -/
theorem plot_ylim_yticks_witness :
    probeFigure.yticks = [] ∧ probeFigure.ylim = (0, 6 / 5 * 1) :=
  plot_ylim_yticks probeEnv "normal" 2 "#ff0000" "#e6ffff" () probeFigure 1
    probe_run_normal (by rfl)

/-- C7: two calls of `plot_tail_events` with identical arguments (same
environment of constructors, distribution name, sample count, colors and
forwarded parameters) compute identical sampled `(xs, ys)` sequences; the
embedding is a pure function of its arguments, faithfully to the source,
which consults no randomness. -/
theorem plot_deterministic {P : Type} (env : ScipyEnv P) (d₁ d₂ : String)
    (n₁ n₂ : ℤ) (tc₁ tc₂ cc₁ cc₂ : String) (p₁ p₂ : P)
    (hd : d₁ = d₂) (hn : n₁ = n₂) (htc : tc₁ = tc₂) (hcc : cc₁ = cc₂) (hp : p₁ = p₂) :
    sampledData (plot_tail_events env d₁ n₁ tc₁ cc₁ p₁) =
    sampledData (plot_tail_events env d₂ n₂ tc₂ cc₂ p₂) := by
  subst hd
  subst hn
  subst htc
  subst hcc
  subst hp
  rfl

/-- Witness for C7 at two identical concrete calls. -/
theorem plot_deterministic_witness :
    sampledData (plot_tail_events probeEnv "normal" 2 "#ff0000" "#e6ffff" ()) =
    sampledData (plot_tail_events probeEnv "normal" 2 "#ff0000" "#e6ffff" ()) :=
  plot_deterministic probeEnv "normal" "normal" 2 2 "#ff0000" "#ff0000"
    "#e6ffff" "#e6ffff" () () rfl rfl rfl rfl rfl

/-- C8: when `plot_tail_events` fails with the invalid-name assertion or
with an error propagated from the distribution constructor, the failure
happens before any output artifact exists: the `plt.subplots` step never
ran. -/
theorem plot_fail_before_figure {P : Type} (env : ScipyEnv P) (d : String) (n : ℤ)
    (tc cc : String) (p : P) (msg : String)
    (h : (plot_tail_events env d n tc cc p).result =
          Except.error (PlotError.assertionError msg) ∨
         (plot_tail_events env d n tc cc p).result =
          Except.error (PlotError.constructorError msg)) :
    Event.createFigure ∉ (plot_tail_events env d n tc cc p).events := by
  revert h
  unfold plot_tail_events
  split
  · intro _ hmem
    simp at hmem
  · split
    · intro _ hmem
      simp at hmem
    · split
      · intro h
        rcases h with h | h <;> simp at h
      · split
        · intro h
          rcases h with h | h <;> simp at h
        · intro h
          rcases h with h | h <;> simp at h

/-- Witness for C8: the invalid name `"laplace"` fails the assertion, and
its run indeed never created a figure. -/
theorem plot_fail_before_figure_witness :
    Event.createFigure ∉ (plot_tail_events probeEnv "laplace" 100 "#ff0000" "#e6ffff" ()).events :=
  plot_fail_before_figure probeEnv "laplace" 100 "#ff0000" "#e6ffff" ()
    assertMessage (Or.inl (by rfl))

/-- C1 (code bug): the docstring of `plot_tail_events` (line 35) declares
the valid names `normal`, `uniform`, `laplace`, `exponential`, but the
lookup table of lines 56-61 keys the Laplace entry as `"Laplace"`; hence
the docstring-valid name `"laplace"` fails the assertion (whose message
enumerates the capitalised `Laplace`) while `"Laplace"` resolves. -/
theorem laplace_casing_code_bug :
    (distributions probeEnv).map Prod.fst = ["normal", "uniform", "Laplace", "exponential"] ∧
    docstringValidNames = ["normal", "uniform", "laplace", "exponential"] ∧
    "laplace" ∈ docstringValidNames ∧
    "laplace" ∉ (distributions probeEnv).map Prod.fst ∧
    "Laplace" ∈ (distributions probeEnv).map Prod.fst ∧
    "Laplace" ∉ docstringValidNames ∧
    (plot_tail_events probeEnv "laplace" 100 "#ff0000" "#e6ffff" ()).result =
      Except.error (PlotError.assertionError assertMessage) ∧
    (∃ fig, (plot_tail_events probeEnv "Laplace" 2 "#ff0000" "#e6ffff" ()).result =
      Except.ok fig) := by
  refine ⟨rfl, rfl, by decide, by decide, by decide, by decide, by rfl, ⟨_, by rfl⟩⟩
